import Mathlib

/-!
Verification development for the resumable parallel API-change crawler
(`api_crawler_gpt.py` together with the extraction client
`visit_gpt4o_fixed.py`).

The Python code is shallowly embedded:
* Python dicts whose keys and values are strings are modelled as
  association lists (`Dict`), with `dictFind`/`dictGet`/`dictSet`/`dictUpdate`
  mirroring `d[k]`, `d.get(k, "")`, `d[k] = v` and `d.update(u)`
  (insertion order is preserved exactly as CPython does).
* The filesystem is modelled as an association list from paths to CSV
  contents, a CSV file being a list of rows, each row a list of cells.
  `os.path.exists`, `os.remove`, `os.rename` and opening a file for
  write/append become `fsExists`, `fsRemove`, `fsRename`, `fsWrite`.
* The nondeterministic ingredients of one extraction attempt (the text the
  page fetch yields, whether the LLM call raises, what `json.loads` does to
  its reply) are oracle parameters; the control flow around them is
  translated verbatim from the source.
* `datetime.now()` timestamps are passed in as a parameter `now`.
* Integer values stored in result dicts (`original_row_num`) are stored via
  `toString`, matching what the CSV writer serialises.
-/

namespace Crawler

/-! ### Python string-keyed dicts as association lists -/

abbrev Dict := List (String × String)

/-- First binding for key `k`, mirroring Python dict lookup. -/
def dictFind : Dict → String → Option String
  | [], _ => none
  | (k2, v) :: rest, k => if k2 = k then some v else dictFind rest k

/-- `result.get(k, "")`. -/
def dictGet (d : Dict) (k : String) : String :=
  (dictFind d k).getD ""

/-- `d[k] = v`: replace the binding in place when the key is present
(keeping insertion order, as CPython does), otherwise append it. -/
def dictSet (d : Dict) (k v : String) : Dict :=
  match dictFind d k with
  | some _ => d.map (fun p => if p.1 = k then (k, v) else p)
  | none => d ++ [(k, v)]

/-- `d.update(u)`: assign every binding of `u` into `d` in order. -/
def dictUpdate (d upd : Dict) : Dict :=
  upd.foldl (fun acc p => dictSet acc p.1 p.2) d

/-! ### The fixed output schema (`get_csv_columns`, lines 81-92) -/

/-- The fixed CSV field order of `get_csv_columns`. -/
def get_csv_columns : List String :=
  ["original_row_num", "url", "crawl_time", "crawl_status", "error_msg",
   "api", "package", "language",
   "deprecated_in", "removed_in", "replaced_by", "change_type", "reason",
   "source"]

/-- The Python `str.strip` method: drop whitespace from both ends (embedded over
the character list so that it evaluates by kernel reduction). -/
def pyStrip (s : String) : String :=
  ⟨(((s.data.dropWhile Char.isWhitespace).reverse).dropWhile Char.isWhitespace).reverse⟩

/-! ### Work items and durable-log rows -/

/-- One unit of work emitted by `load_urls_from_csv` (lines 54-57). -/
structure WorkItem where
  url : String
  original_row_num : Nat
deriving DecidableEq, Repr

/-- The projection of a durable-log row that `load_urls_from_csv` reads:
only the `url` and `crawl_status` fields of each `DictReader` row are
consulted (lines 38-40).  The guard on line 37 requires both headers to be
present; logs written by this program always have the full 14-column header,
so both fields exist on every row. -/
structure LogRow where
  url : String
  crawl_status : String
deriving DecidableEq, Repr

/-- Lines 33-41: the set of already-successful URLs recovered from the
durable log (`none` models an absent temp file, in which case the set is
empty).  Each successful row contributes `row["url"].strip()`. -/
def completed_urls (tempLog : Option (List LogRow)) : List String :=
  match tempLog with
  | none => []
  | some rows =>
      (rows.filter (fun r => r.crawl_status = "success")).map (fun r => pyStrip r.url)

/-- Lines 51-57: `for row_num, row in enumerate(reader, 2)`, keeping each
non-empty stripped URL that is not in the completed set. -/
def load_urls_aux (completed : List String) : Nat → List String → List WorkItem
  | _, [] => []
  | row_num, u :: rest =>
      let url := pyStrip u
      (if url ≠ "" ∧ url ∉ completed then [⟨url, row_num⟩] else []) ++
        load_urls_aux completed (row_num + 1) rest

/-- `load_urls_from_csv` (lines 26-61).  `manifest` is the `url` column of
the input CSV, one entry per data row; `tempLog` is the parsed durable log
(or `none` when the temp file does not exist). -/
def load_urls_from_csv (manifest : List String) (tempLog : Option (List LogRow)) :
    List WorkItem :=
  load_urls_aux (completed_urls tempLog) 2 manifest

/-! ### One extraction attempt (`crawl_single_api`, lines 96-133) -/

/-- What one `visit_tool.call` attempt looks like to the `try` block of
`crawl_single_api`:
* `raise`: the call raised (e.g. the LLM helper re-raised after its
  internal retries) with exception text `msg`;
* `emptyReply`: the call returned a string whose `strip()` is empty, so
  line 116 raises `ValueError("爬取结果为空字符串")`;
* `malformed`: the returned string is non-empty but `json.loads` raises
  with text `msg` (line 119);
* `ok`: `json.loads` produced the dict `api_data`. -/
inductive AttemptOutcome where
  | raise (msg : String)
  | emptyReply
  | malformed (msg : String)
  | ok (api_data : Dict)
deriving DecidableEq, Repr

/-- Whether the attempt takes the `except` path of the retry loop. -/
def AttemptOutcome.isFailure : AttemptOutcome → Bool
  | .ok _ => false
  | _ => true

/-- The `str(e)` text of the exception a failing attempt raises. -/
def failureText : AttemptOutcome → String
  | .raise msg => msg
  | .emptyReply => "爬取结果为空字符串"
  | .malformed msg => msg
  | .ok _ => ""

/-- Lines 98-104: the result dict `crawl_single_api` starts from. -/
def init_result (url : String) (original_row_num : Nat) (now : String) : Dict :=
  [("original_row_num", toString original_row_num), ("url", url),
   ("crawl_time", now), ("crawl_status", "failed"), ("error_msg", "")]

/-- The retry loop of `crawl_single_api` (lines 106-133), written with the
number of remaining loop iterations as the structurally decreasing
argument (`for retry in range(MAX_RETRIES)` performs `maxRetries`
iterations; at loop index `retry` exactly `maxRetries - retry` iterations
remain).  `client retry` is the outcome of the attempt made at loop index
`retry` (0-based).  Returns the final result dict together with the number
of client invocations made (the second component instruments the call
count; the source performs exactly one `visit_tool.call` per iteration). -/
def crawl_loop (client : Nat → AttemptOutcome) (maxRetries : Nat) :
    Nat → Nat → Dict → Dict × Nat
  | _, 0, result =>
      -- line 132: all retries exhausted
      (dictSet result "error_msg"
        ("超过" ++ toString maxRetries ++ "次重试：" ++ dictGet result "error_msg"), 0)
  | retry, remaining + 1, result =>
      match client retry with
      | .ok api_data =>
          -- lines 118-123: merge api_data, mark success, clear error, return
          (dictSet (dictSet (dictUpdate result api_data) "crawl_status" "success")
            "error_msg" "", 1)
      | outcome =>
          -- lines 125-129: record the failure text of this attempt, retry
          let msg := "第" ++ toString (retry + 1) ++ "次重试失败：" ++ failureText outcome
          let r2 := crawl_loop client maxRetries (retry + 1) remaining
            (dictSet result "error_msg" msg)
          (r2.1, r2.2 + 1)

/-- `MAX_RETRIES` (line 16). -/
def MAX_RETRIES : Nat := 2

/-- `crawl_single_api` generalised over the retry budget, paired with its
client-invocation count. -/
def attempt_with_retries (client : Nat → AttemptOutcome) (maxRetries : Nat)
    (url : String) (original_row_num : Nat) (now : String) : Dict × Nat :=
  crawl_loop client maxRetries 0 maxRetries (init_result url original_row_num now)

/-- `crawl_single_api` (lines 96-133) at the configured `MAX_RETRIES`. -/
def crawl_single_api (client : Nat → AttemptOutcome) (url : String)
    (original_row_num : Nat) (now : String) : Dict :=
  (attempt_with_retries client MAX_RETRIES url original_row_num now).1

/-! ### The extraction client `VisitGPT4o.call` (visit_gpt4o_fixed.py 192-222) -/

/-- What `self.llm(messages)` does on a given call: either it raises (after
its internal retries, line 104) with text `msg`, or it returns a string,
summarised by whether the string strips to empty and what `json.loads`
does to it. -/
inductive LlmOutcome where
  | raised (msg : String)
  | returned (strip_empty : Bool) (parsed : Except String Dict)
deriving Repr

/-- `VisitGPT4o.call` (lines 192-222) composed with the handling of its
return value in `crawl_single_api`.  `webpage_content` is the text
`read_webpage(url)` returns; every fetch-error path of `read_webpage`
(HTTP timeout, request error, any other exception, lines 182-190) returns
the empty string.  When the fetch yields no content, `call` returns
`json.dumps` of a one-key error dict (line 204) — a non-empty string that
`json.loads` parses back to that dict — so the `try` block of the crawler sees
a successfully parsed reply. -/
def visit_call_outcome (webpage_content : String) (llm : LlmOutcome) :
    AttemptOutcome :=
  if webpage_content = "" then
    AttemptOutcome.ok [("error", "无法读取网页内容")]
  else
    match llm with
    | LlmOutcome.raised msg => AttemptOutcome.raise msg
    | LlmOutcome.returned true _ => AttemptOutcome.emptyReply
    | LlmOutcome.returned false (Except.error m) => AttemptOutcome.malformed m
    | LlmOutcome.returned false (Except.ok d) => AttemptOutcome.ok d

/-! ### The filesystem and the durable sink -/

abbrev FileContent := List (List String)

/-- The filesystem: a finite map from paths to CSV contents. -/
abbrev FS := List (String × FileContent)

def fsRead : FS → String → Option FileContent
  | [], _ => none
  | (q, c) :: rest, p => if q = p then some c else fsRead rest p

/-- `os.path.exists`. -/
def fsExists (fs : FS) (p : String) : Bool :=
  (fsRead fs p).isSome

/-- `os.remove` (no-op when the path is absent; the source only removes
paths it has checked exist). -/
def fsRemove (fs : FS) (p : String) : FS :=
  fs.filter (fun e => e.1 ≠ p)

/-- Opening `p` in mode `"w"` and writing `c`. -/
def fsWrite (fs : FS) (p : String) (c : FileContent) : FS :=
  fsRemove fs p ++ [(p, c)]

/-- `os.rename src dst` (no-op when `src` is absent; the source only
renames paths it has checked exist). -/
def fsRename (fs : FS) (src dst : String) : FS :=
  match fsRead fs src with
  | none => fs
  | some c => fsWrite (fsRemove fs src) dst c

/-- The single row `DictWriter.writerow(filtered_result)` emits
(lines 140-144): one cell per column of `get_csv_columns`, in that order,
each cell `result.get(k, "")`.  Keys of `result` outside the column list
are dropped by the filtering on line 143. -/
def write_result_row (result : Dict) : List String :=
  get_csv_columns.map (fun k => dictGet result k)

/-- `write_result_to_csv` (lines 136-144): append one row to the CSV at
`p` (append mode creates the file when absent). -/
def write_result_to_csv (fs : FS) (result : Dict) (p : String) : FS :=
  fsWrite fs p (((fsRead fs p).getD []) ++ [write_result_row result])

/-- `init_temp_csv` (lines 71-78): create the log with the fixed header
row only when no file exists at the path. -/
def init_temp_csv (fs : FS) (temp : String) : FS :=
  if fsExists fs temp then fs else fsWrite fs temp [get_csv_columns]

/-- The final promotion (lines 224-227): if the temp file exists, remove
any prior output file, then rename the temp file onto the output path. -/
def promote (fs : FS) (temp output : String) : FS :=
  if fsExists fs temp then
    fsRename (if fsExists fs output then fsRemove fs output else fs) temp output
  else fs

/-- The empty-pending short-circuit (lines 151-156): rename the temp file
onto the output path only when the temp file exists and no file exists at
the output path, then `sys.exit(0)`. -/
def finalize_empty_pending (fs : FS) (temp output : String) : FS :=
  if fsExists fs temp && !fsExists fs output then fsRename fs temp output else fs

/-- The record the drain loop writes when `future.result(timeout=60)`
raises (lines 206-216); `e` is `str(e)` of the raised exception — the
empty string for `concurrent.futures.TimeoutError()`. -/
def drain_exception_record (url : String) (original_row_num : Nat)
    (now : String) (e : String) : Dict :=
  [("original_row_num", toString original_row_num), ("url", url),
   ("crawl_time", now), ("crawl_status", "failed"),
   ("error_msg", "线程执行异常：" ++ e)]

/-- How `DictReader` projects a raw durable-log row under the fixed
14-column header this program writes: `url` is column 1, `crawl_status` column 3. -/
def rowToLogRow (row : List String) : LogRow :=
  { url := (row.get? 1).getD "", crawl_status := (row.get? 3).getD "" }

/-- Reading the durable log for resumption: absent file gives `none`;
otherwise drop the header row and project each data row. -/
def readTempLog (fs : FS) (temp : String) : Option (List LogRow) :=
  (fsRead fs temp).map (fun rows => (rows.drop 1).map rowToLogRow)

/-- `batch_crawl_large_scale` (lines 148-242) at the level of filesystem
state.  `manifest` is the `url` column of the input CSV; `client w` is the
per-attempt outcome oracle for work item `w`; `now` stands in for the
timestamps.  Completed tasks are drained by `as_completed` in completion
order; the model appends rows in submission order (the order only permutes
the appended rows and no claim below depends on it), and it models runs in
which `future.result` itself does not raise (per-attempt failures are
already part of `client`). -/
def batch_crawl_large_scale (fs : FS) (client : WorkItem → Nat → AttemptOutcome)
    (now : String) (manifest : List String) (temp_csv output_csv : String) : FS :=
  let all_urls := load_urls_from_csv manifest (readTempLog fs temp_csv)
  if all_urls = [] then
    finalize_empty_pending fs temp_csv output_csv
  else
    let fs1 := init_temp_csv fs temp_csv
    let fs2 := all_urls.foldl
      (fun acc w =>
        write_result_to_csv acc
          (crawl_single_api (client w) w.url w.original_row_num now) temp_csv)
      fs1
    promote fs2 temp_csv output_csv

end Crawler

namespace Crawler

/-! ### Dictionary lemmas -/

lemma dictFind_append (d1 d2 : Dict) (k : String) :
    dictFind (d1 ++ d2) k =
      match dictFind d1 k with
      | some v => some v
      | none => dictFind d2 k := by
  induction d1 with
  | nil => simp [dictFind]
  | cons p rest ih =>
      obtain ⟨k2, v⟩ := p
      by_cases h : k2 = k <;> simp [dictFind, h, ih]

lemma dictFind_mapSet_self (d : Dict) (k v : String) :
    dictFind (d.map (fun p => if p.1 = k then (k, v) else p)) k =
      (dictFind d k).map (fun _ => v) := by
  induction d with
  | nil => simp [dictFind]
  | cons p rest ih =>
      obtain ⟨k1, u⟩ := p
      simp only [List.map_cons]
      by_cases h : k1 = k
      · subst h
        rw [if_pos rfl]
        simp [dictFind, ih]
      · rw [if_neg h]
        simp [dictFind, h, ih]

lemma dictFind_mapSet_ne (d : Dict) (k v k2 : String) (h : k2 ≠ k) :
    dictFind (d.map (fun p => if p.1 = k then (k, v) else p)) k2 = dictFind d k2 := by
  induction d with
  | nil => simp [dictFind]
  | cons p rest ih =>
      obtain ⟨k1, u⟩ := p
      simp only [List.map_cons]
      by_cases h1 : k1 = k
      · subst h1
        rw [if_pos rfl]
        simp [dictFind, Ne.symm h, ih]
      · rw [if_neg h1]
        simp [dictFind, ih]

lemma dictFind_dictSet_self (d : Dict) (k v : String) :
    dictFind (dictSet d k v) k = some v := by
  unfold dictSet
  cases hfind : dictFind d k with
  | none =>
      rw [dictFind_append, hfind]
      simp [dictFind]
  | some w =>
      rw [dictFind_mapSet_self, hfind]
      rfl

lemma dictFind_dictSet_ne (d : Dict) (k v k2 : String) (h : k2 ≠ k) :
    dictFind (dictSet d k v) k2 = dictFind d k2 := by
  unfold dictSet
  cases hfind : dictFind d k with
  | none =>
      rw [dictFind_append]
      cases h2 : dictFind d k2 with
      | some w => simp
      | none => simp [dictFind, Ne.symm h]
  | some w =>
      rw [dictFind_mapSet_ne _ _ _ _ h]

lemma dictGet_dictSet_self (d : Dict) (k v : String) :
    dictGet (dictSet d k v) k = v := by
  simp [dictGet, dictFind_dictSet_self]

lemma dictGet_dictSet_ne (d : Dict) (k v k2 : String) (h : k2 ≠ k) :
    dictGet (dictSet d k v) k2 = dictGet d k2 := by
  simp [dictGet, dictFind_dictSet_ne _ _ _ _ h]

/-! ### Filesystem lemmas -/

lemma fsRead_append (l m : FS) (p : String) :
    fsRead (l ++ m) p =
      match fsRead l p with
      | some c => some c
      | none => fsRead m p := by
  induction l with
  | nil => simp [fsRead]
  | cons e rest ih =>
      obtain ⟨q, c⟩ := e
      by_cases h : q = p <;> simp [fsRead, h, ih]

lemma fsRead_fsRemove (fs : FS) (p q : String) :
    fsRead (fsRemove fs p) q = if q = p then none else fsRead fs q := by
  induction fs with
  | nil => simp [fsRead, fsRemove]
  | cons e rest ih =>
      obtain ⟨r, c⟩ := e
      by_cases hr : r = p
      · subst hr
        by_cases hq : q = r
        · subst hq
          simpa [fsRemove, fsRead, List.filter_cons] using ih
        · simpa [fsRemove, fsRead, List.filter_cons, hq, Ne.symm hq] using ih
      · by_cases hq : r = q
        · subst hq
          simp [fsRemove, fsRead, List.filter_cons, hr, Ne.symm hr]
        · have ih2 := ih
          simp only [fsRemove, decide_not] at ih2
          simp [fsRemove, fsRead, List.filter_cons, hr, hq, ih2]

lemma fsRead_fsWrite_self (fs : FS) (p : String) (c : FileContent) :
    fsRead (fsWrite fs p c) p = some c := by
  unfold fsWrite
  rw [fsRead_append, fsRead_fsRemove]
  simp [fsRead]

lemma fsRead_fsWrite_ne (fs : FS) (p q : String) (c : FileContent) (h : q ≠ p) :
    fsRead (fsWrite fs p c) q = fsRead fs q := by
  unfold fsWrite
  rw [fsRead_append, fsRead_fsRemove, if_neg h]
  cases hq : fsRead fs q with
  | some w => simp
  | none => simp [fsRead, Ne.symm h]

/-! ### Retry-loop lemmas -/

lemma crawl_loop_fail_step (client : Nat → AttemptOutcome) (maxRetries retry remaining : Nat)
    (result : Dict) (hf : (client retry).isFailure = true) :
    crawl_loop client maxRetries retry (remaining + 1) result =
      ((crawl_loop client maxRetries (retry + 1) remaining
          (dictSet result "error_msg"
            ("第" ++ toString (retry + 1) ++ "次重试失败：" ++ failureText (client retry)))).1,
       (crawl_loop client maxRetries (retry + 1) remaining
          (dictSet result "error_msg"
            ("第" ++ toString (retry + 1) ++ "次重试失败：" ++ failureText (client retry)))).2 + 1) := by
  cases hc : client retry with
  | ok d => simp [AttemptOutcome.isFailure, hc] at hf
  | raise m => simp [crawl_loop, hc]
  | emptyReply => simp [crawl_loop, hc]
  | malformed m => simp [crawl_loop, hc]

lemma crawl_loop_success_step (client : Nat → AttemptOutcome) (maxRetries retry remaining : Nat)
    (result d : Dict) (hc : client retry = .ok d) :
    crawl_loop client maxRetries retry (remaining + 1) result =
      (dictSet (dictSet (dictUpdate result d) "crawl_status" "success") "error_msg" "", 1) := by
  simp [crawl_loop, hc]

lemma crawl_loop_all_fail (client : Nat → AttemptOutcome) (maxRetries : Nat) :
    ∀ (remaining retry : Nat) (result : Dict),
      (∀ i, retry ≤ i → i < retry + remaining → (client i).isFailure = true) →
      (crawl_loop client maxRetries retry remaining result).2 = remaining ∧
      dictGet (crawl_loop client maxRetries retry remaining result).1 "crawl_status" =
        dictGet result "crawl_status" ∧
      ∃ s, dictGet (crawl_loop client maxRetries retry remaining result).1 "error_msg" =
        "超过" ++ toString maxRetries ++ "次重试：" ++ s := by
  intro remaining
  induction remaining with
  | zero =>
      intro retry result _
      refine ⟨rfl, ?_, ?_⟩
      · exact dictGet_dictSet_ne _ _ _ _ (by decide)
      · exact ⟨dictGet result "error_msg", dictGet_dictSet_self _ _ _⟩
  | succ n ih =>
      intro retry result hfail
      have hf : (client retry).isFailure = true := hfail retry le_rfl (by omega)
      rw [crawl_loop_fail_step client maxRetries retry n result hf]
      obtain ⟨h1, h2, s, h3⟩ := ih (retry + 1)
        (dictSet result "error_msg"
          ("第" ++ toString (retry + 1) ++ "次重试失败：" ++ failureText (client retry)))
        (fun i hi1 hi2 => hfail i (by omega) (by omega))
      refine ⟨by simpa using h1, ?_, ⟨s, h3⟩⟩
      rw [h2, dictGet_dictSet_ne _ _ _ _ (by decide)]

lemma crawl_loop_first_success (client : Nat → AttemptOutcome) (maxRetries : Nat) :
    ∀ (j remaining retry : Nat) (result d : Dict),
      j < remaining →
      (∀ i, retry ≤ i → i < retry + j → (client i).isFailure = true) →
      client (retry + j) = .ok d →
      (crawl_loop client maxRetries retry remaining result).2 = j + 1 ∧
      dictGet (crawl_loop client maxRetries retry remaining result).1 "crawl_status" =
        "success" := by
  intro j
  induction j with
  | zero =>
      intro remaining retry result d hj hfail hok
      obtain ⟨n, rfl⟩ : ∃ n, remaining = n + 1 := ⟨remaining - 1, by omega⟩
      rw [crawl_loop_success_step client maxRetries retry n result d (by simpa using hok)]
      refine ⟨rfl, ?_⟩
      rw [dictGet_dictSet_ne _ _ _ _ (by decide), dictGet_dictSet_self]
  | succ m ih =>
      intro remaining retry result d hj hfail hok
      obtain ⟨n, rfl⟩ : ∃ n, remaining = n + 1 := ⟨remaining - 1, by omega⟩
      have hf : (client retry).isFailure = true := hfail retry le_rfl (by omega)
      rw [crawl_loop_fail_step client maxRetries retry n result hf]
      obtain ⟨h1, h2⟩ := ih n (retry + 1)
        (dictSet result "error_msg"
          ("第" ++ toString (retry + 1) ++ "次重试失败：" ++ failureText (client retry)))
        d (by omega)
        (fun i hi1 hi2 => hfail i (by omega) (by omega))
        (by rw [show retry + 1 + m = retry + (m + 1) by omega]; exact hok)
      exact ⟨by simpa using h1, h2⟩

/-- The initial result dict starts out marked failed with no error text. -/
lemma init_result_fields (url : String) (orn : Nat) (now : String) :
    dictGet (init_result url orn now) "crawl_status" = "failed" ∧
    dictGet (init_result url orn now) "error_msg" = "" := by
  constructor <;> simp [init_result, dictGet, dictFind]

/-! ### Work-item loading lemmas -/

lemma mem_load_urls_aux (completed : List String) :
    ∀ (manifest : List String) (n : Nat) (w : WorkItem),
      w ∈ load_urls_aux completed n manifest ↔
        ∃ i u0, manifest.get? i = some u0 ∧
          w = ⟨pyStrip u0, n + i⟩ ∧ pyStrip u0 ≠ "" ∧ pyStrip u0 ∉ completed := by
  intro manifest
  induction manifest with
  | nil =>
      intro n w
      simp [load_urls_aux]
  | cons u rest ih =>
      intro n w
      simp only [load_urls_aux, List.mem_append]
      constructor
      · intro hmem
        rcases hmem with hl | hr
        · by_cases hc : pyStrip u ≠ "" ∧ pyStrip u ∉ completed
          · rw [if_pos hc] at hl
            simp only [List.mem_singleton] at hl
            exact ⟨0, u, rfl, by simpa using hl, hc.1, hc.2⟩
          · rw [if_neg hc] at hl
            simp at hl
        · obtain ⟨i, u0, hget, hw, h1, h2⟩ := (ih (n + 1) w).1 hr
          refine ⟨i + 1, u0, by simpa using hget, ?_, h1, h2⟩
          exact hw.trans (by rw [show n + 1 + i = n + (i + 1) by omega])
      · rintro ⟨i, u0, hget, hw, h1, h2⟩
        cases i with
        | zero =>
            simp only [List.get?] at hget
            cases hget
            left
            rw [if_pos ⟨h1, h2⟩]
            simp [hw]
        | succ j =>
            right
            refine (ih (n + 1) w).2 ⟨j, u0, by simpa using hget, ?_, h1, h2⟩
            exact hw.trans (by rw [show n + (j + 1) = n + 1 + j by omega])

lemma countP_load_urls_aux (completed : List String) (u : String)
    (hu1 : u ≠ "") (hu2 : u ∉ completed) :
    ∀ (manifest : List String) (n : Nat),
      (load_urls_aux completed n manifest).countP (fun w => w.url = u) =
        manifest.countP (fun s => pyStrip s = u) := by
  intro manifest
  induction manifest with
  | nil => intro n; simp [load_urls_aux]
  | cons v rest ih =>
      intro n
      simp only [load_urls_aux, List.countP_append, List.countP_cons]
      by_cases hv : pyStrip v = u
      · rw [if_pos (by rw [hv]; exact ⟨hu1, hu2⟩)]
        simp [List.countP_cons, hv, ih, Nat.add_comm]
      · by_cases hc : pyStrip v ≠ "" ∧ pyStrip v ∉ completed
        · rw [if_pos hc]
          simp [List.countP_cons, hv, ih]
        · rw [if_neg hc]
          simp [hv, ih]

lemma length_load_urls_aux (completed : List String) :
    ∀ (manifest : List String) (n : Nat),
      (load_urls_aux completed n manifest).length =
        manifest.countP (fun s => pyStrip s ≠ "" ∧ pyStrip s ∉ completed) := by
  intro manifest
  induction manifest with
  | nil => intro n; simp [load_urls_aux]
  | cons v rest ih =>
      intro n
      simp only [load_urls_aux, List.length_append, List.countP_cons]
      by_cases hc : pyStrip v ≠ "" ∧ pyStrip v ∉ completed
      · rw [if_pos hc]
        simp [hc, ih, Nat.add_comm]
      · rw [if_neg hc]
        have : ¬ (pyStrip v ≠ "" ∧ pyStrip v ∉ completed) := hc
        simp [ih, this]

lemma mem_completed_urls (rows : List LogRow) (u : String) :
    u ∈ completed_urls (some rows) ↔
      ∃ r ∈ rows, r.crawl_status = "success" ∧ pyStrip r.url = u := by
  simp only [completed_urls, List.mem_map, List.mem_filter]
  constructor
  · rintro ⟨r, ⟨hr, hs⟩, hu⟩
    exact ⟨r, hr, by simpa using hs, hu⟩
  · rintro ⟨r, hr, hs, hu⟩
    exact ⟨r, ⟨hr, by simpa using hs⟩, hu⟩

/-! ### Sink lemmas -/

lemma fsRead_write_results_fold (temp : String)
    (rowOf : WorkItem → Dict) :
    ∀ (ws : List WorkItem) (fs : FS) (rows : FileContent),
      fsRead fs temp = some rows →
      fsRead (ws.foldl (fun acc w => write_result_to_csv acc (rowOf w) temp) fs) temp =
        some (rows ++ ws.map (fun w => write_result_row (rowOf w))) := by
  intro ws
  induction ws with
  | nil =>
      intro fs rows h
      simpa using h
  | cons w rest ih =>
      intro fs rows h
      simp only [List.foldl_cons, List.map_cons]
      rw [ih _ (rows ++ [write_result_row (rowOf w)])
        (by simp [write_result_to_csv, h, fsRead_fsWrite_self])]
      simp

/-! ### Claim theorems -/

/-- Claim C2: `load_urls_from_csv` computes the pending work-item set as
exactly the manifest urls (non-empty, stripped) minus the set of urls
recorded with crawl_status `success` in the durable log: the work item for
a manifest row whose stripped url is non-empty is emitted iff no
durable-log row carries that url (stripped) with status `success`; a url
whose only durable-log rows are failures is retried. -/
theorem load_pending_iff_not_logged_success
    (manifest : List String) (log : Option (List LogRow)) (i : Nat) (u0 : String)
    (hget : manifest.get? i = some u0) (hne : pyStrip u0 ≠ "") :
    ((⟨pyStrip u0, 2 + i⟩ : WorkItem) ∈ load_urls_from_csv manifest log) ↔
      ¬ ∃ r ∈ log.getD [], r.crawl_status = "success" ∧ pyStrip r.url = pyStrip u0 := by
  cases log with
  | none =>
      simp only [Option.getD]
      constructor
      · rintro _ ⟨r, hr, _⟩
        simp at hr
      · intro _
        exact (mem_load_urls_aux _ manifest 2 _).2
          ⟨i, u0, hget, rfl, hne, by simp [completed_urls]⟩
  | some rows =>
      rw [show load_urls_from_csv manifest (some rows) =
            load_urls_aux (completed_urls (some rows)) 2 manifest from rfl,
          mem_load_urls_aux]
      constructor
      · rintro ⟨j, u1, hget1, hwk, h1, h2⟩ hex
        have hj : j = i := by
          have := congrArg WorkItem.original_row_num hwk
          simp only at this
          omega
        subst hj
        rw [hget] at hget1
        have hu : u0 = u1 := Option.some.inj hget1
        subst hu
        exact h2 ((mem_completed_urls rows _).2 (by simpa using hex))
      · intro hnot
        refine ⟨i, u0, hget, rfl, hne, ?_⟩
        intro hmem
        exact hnot (by simpa using (mem_completed_urls rows _).1 hmem)

/-- Witness: with manifest rows `a`, `b` and a log where `a` succeeded and
`b` failed, `b` is pending (row 3) and `a` is not. -/
theorem load_pending_iff_not_logged_success_witness :
    ((⟨"b", 3⟩ : WorkItem) ∈
      load_urls_from_csv ["a", "b"] (some [⟨"a", "success"⟩, ⟨"b", "failed"⟩])) ∧
    ¬ ((⟨"a", 2⟩ : WorkItem) ∈
      load_urls_from_csv ["a", "b"] (some [⟨"a", "success"⟩, ⟨"b", "failed"⟩])) := by
  constructor
  · exact (load_pending_iff_not_logged_success ["a", "b"]
      (some [⟨"a", "success"⟩, ⟨"b", "failed"⟩]) 1 "b" rfl (by decide)).mpr (by decide)
  · intro hmem
    exact (load_pending_iff_not_logged_success ["a", "b"]
      (some [⟨"a", "success"⟩, ⟨"b", "failed"⟩]) 0 "a" rfl (by decide)).mp hmem (by decide)

/-- Claim C10: duplicate manifest urls are not deduplicated against each
other — for any url that is non-empty and not previously successful, the
number of work items carrying it equals the number of manifest rows whose
stripped url is it (so each occurrence is processed and appended
separately). -/
theorem load_manifest_duplicates_kept (manifest : List String)
    (log : Option (List LogRow)) (u : String)
    (h1 : u ≠ "") (h2 : u ∉ completed_urls log) :
    (load_urls_from_csv manifest log).countP (fun w => w.url = u) =
      manifest.countP (fun s => pyStrip s = u) :=
  countP_load_urls_aux _ u h1 h2 manifest 2

/-- Witness: the manifest `[x, x]` over an empty log yields two work items
for `x`. -/
theorem load_manifest_duplicates_kept_witness :
    (load_urls_from_csv ["x", "x"] (some [])).countP (fun w => w.url = "x") = 2 :=
  (load_manifest_duplicates_kept ["x", "x"] (some []) "x" (by decide) (by decide)).trans
    (by decide)

/-- Claim C4: with a client failing on every attempt, the retry wrapper
invokes the client exactly `maxRetries` times and returns a record marked
`failed` whose error message is non-empty and carries the exhausted retry
count; with a client first succeeding at attempt `k + 1 ≤ maxRetries`, it
returns right after that attempt marked `success`, making no further
attempts. -/
theorem attempt_retry_exhaustion_and_short_circuit
    (client : Nat → AttemptOutcome) (maxRetries : Nat) (url : String)
    (orn : Nat) (now : String) :
    ((∀ i, i < maxRetries → (client i).isFailure = true) →
      (attempt_with_retries client maxRetries url orn now).2 = maxRetries ∧
      dictGet (attempt_with_retries client maxRetries url orn now).1 "crawl_status" =
        "failed" ∧
      dictGet (attempt_with_retries client maxRetries url orn now).1 "error_msg" ≠ "" ∧
      ∃ s, dictGet (attempt_with_retries client maxRetries url orn now).1 "error_msg" =
        "超过" ++ toString maxRetries ++ "次重试：" ++ s) ∧
    (∀ k d, k < maxRetries → (∀ j, j < k → (client j).isFailure = true) →
      client k = AttemptOutcome.ok d →
      (attempt_with_retries client maxRetries url orn now).2 = k + 1 ∧
      dictGet (attempt_with_retries client maxRetries url orn now).1 "crawl_status" =
        "success") := by
  constructor
  · intro hfail
    obtain ⟨h1, h2, s, h3⟩ :=
      crawl_loop_all_fail client maxRetries maxRetries 0
        (init_result url orn now) (fun i hi1 hi2 => hfail i (by omega))
    refine ⟨h1, h2.trans (init_result_fields url orn now).1, ?_, ⟨s, h3⟩⟩
    intro hemp
    have hlen := congrArg String.length (h3.symm.trans hemp)
    simp [String.length_append] at hlen
    exact absurd hlen.1.1.1 (by decide)
  · intro k d hk hfail hok
    exact crawl_loop_first_success client maxRetries k maxRetries 0
      (init_result url orn now) d hk (fun i hi1 hi2 => hfail i (by omega))
      (by simpa using hok)

/-- Witness: at `maxRetries = 2`, an always-raising client is invoked
twice and yields a failed record; a client succeeding at attempt 2 yields
two invocations and a success record. -/
theorem attempt_retry_exhaustion_and_short_circuit_witness :
    ((attempt_with_retries (fun _ => AttemptOutcome.raise "network error") 2 "u" 2 "t").2 = 2 ∧
     dictGet (attempt_with_retries (fun _ => AttemptOutcome.raise "network error")
        2 "u" 2 "t").1 "crawl_status" = "failed") ∧
    ((attempt_with_retries
        (fun i => if i = 0 then AttemptOutcome.raise "network error"
          else AttemptOutcome.ok [("api", "foo")]) 2 "u" 2 "t").2 = 2 ∧
     dictGet (attempt_with_retries
        (fun i => if i = 0 then AttemptOutcome.raise "network error"
          else AttemptOutcome.ok [("api", "foo")]) 2 "u" 2 "t").1 "crawl_status" =
        "success") := by
  constructor
  · obtain ⟨h1, h2, _, _⟩ :=
      (attempt_retry_exhaustion_and_short_circuit
        (fun _ => AttemptOutcome.raise "network error") 2 "u" 2 "t").1
        (fun i _ => by decide)
    exact ⟨h1, h2⟩
  · exact (attempt_retry_exhaustion_and_short_circuit
      (fun i => if i = 0 then AttemptOutcome.raise "network error"
        else AttemptOutcome.ok [("api", "foo")]) 2 "u" 2 "t").2 1 [("api", "foo")]
      (by decide)
      (by
        intro j hj
        obtain rfl : j = 0 := by omega
        decide)
      (by decide)

/-- Claim C3 (code bug): when the page fetch fails — `read_webpage` catches
the network error or timeout and returns the empty string — `VisitGPT4o.call`
returns the error-JSON string rather than raising, so `crawl_single_api`
parses it as a normal reply and records `crawl_status = "success"` with an
empty error message and empty extraction fields, contradicting the claim
that every extraction failure yields a `failed` record. -/
theorem fetch_failure_recorded_as_success :
    dictGet (crawl_single_api
        (fun _ => visit_call_outcome "" (LlmOutcome.raised "network unreachable"))
        "https://example.com/doc" 2 "2026-01-02 03:04:05") "crawl_status" = "success" ∧
    dictGet (crawl_single_api
        (fun _ => visit_call_outcome "" (LlmOutcome.raised "network unreachable"))
        "https://example.com/doc" 2 "2026-01-02 03:04:05") "error_msg" = "" ∧
    dictGet (crawl_single_api
        (fun _ => visit_call_outcome "" (LlmOutcome.raised "network unreachable"))
        "https://example.com/doc" 2 "2026-01-02 03:04:05") "api" = "" := by
  decide

lemma dictGet_append_ne (r : Dict) (k v c : String) (h : k ≠ c) :
    dictGet (r ++ [(k, v)]) c = dictGet r c := by
  rw [dictGet, dictFind_append]
  cases hc : dictFind r c with
  | some w => simp [dictGet, hc]
  | none => simp [dictGet, dictFind, h, hc]

/-- Claim C7: every row appended to the durable log has exactly the 14
cells of the fixed schema, in the fixed order, each cell being the
value the record holds for that column; a field absent from the record is written
as the empty string, and a key outside the column list never affects the
row. -/
theorem write_row_schema (r : Dict) :
    (write_result_row r).length = 14 ∧
    (∀ i, i < 14 → (write_result_row r).get? i =
      some (dictGet r ((get_csv_columns.get? i).getD ""))) ∧
    (∀ i, i < 14 → dictFind r ((get_csv_columns.get? i).getD "") = none →
      (write_result_row r).get? i = some "") ∧
    (∀ k v, k ∉ get_csv_columns →
      write_result_row (r ++ [(k, v)]) = write_result_row r) := by
  refine ⟨by simp [write_result_row, get_csv_columns], ?_, ?_, ?_⟩
  · intro i hi
    interval_cases i <;> rfl
  · intro i hi hnone
    interval_cases i <;> simp_all [write_result_row, get_csv_columns, dictGet]
  · intro k v hk
    unfold write_result_row
    refine List.map_congr_left ?_
    intro c hc
    exact dictGet_append_ne r k v c (fun he => hk (he ▸ hc))

/-- Witness for the schema theorem at a concrete partial record with an
extra key. -/
theorem write_row_schema_witness :
    (write_result_row [("url", "a"), ("crawl_status", "failed"), ("extra", "zzz")]).length
      = 14 ∧
    (write_result_row [("url", "a"), ("crawl_status", "failed"), ("extra", "zzz")]).get? 5
      = some "" ∧
    write_result_row ([("url", "a")] ++ [("junk", "zzz")]) = write_result_row [("url", "a")] := by
  obtain ⟨h1, h2, h3, h4⟩ :=
    write_row_schema [("url", "a"), ("crawl_status", "failed"), ("extra", "zzz")]
  refine ⟨h1, ?_, ?_⟩
  · exact h3 5 (by decide) (by decide)
  · exact (write_row_schema [("url", "a")]).2.2.2 "junk" "zzz" (by decide)

/-- Claim C8: `init_temp_csv` creates the durable log with the fixed
14-column header iff no file exists at the path; an existing file (and the
rest of the filesystem) is left entirely unchanged. -/
theorem init_log_creates_iff_missing (fs : FS) (p : String) :
    (fsExists fs p = true → init_temp_csv fs p = fs) ∧
    (fsExists fs p = false →
      fsRead (init_temp_csv fs p) p = some [get_csv_columns] ∧
      ∀ q, q ≠ p → fsRead (init_temp_csv fs p) q = fsRead fs q) := by
  constructor
  · intro h
    simp [init_temp_csv, h]
  · intro h
    refine ⟨?_, ?_⟩
    · simp [init_temp_csv, h, fsRead_fsWrite_self]
    · intro q hq
      simp [init_temp_csv, h, fsRead_fsWrite_ne _ _ _ _ hq]

/-- Witness: an existing log is untouched; a missing log is created with
exactly the header row. -/
theorem init_log_creates_iff_missing_witness :
    init_temp_csv [("api_crawl_temp_gpt5.csv", [["x"]])] "api_crawl_temp_gpt5.csv" =
      [("api_crawl_temp_gpt5.csv", [["x"]])] ∧
    fsRead (init_temp_csv [] "api_crawl_temp_gpt5.csv") "api_crawl_temp_gpt5.csv" =
      some [get_csv_columns] := by
  constructor
  · exact (init_log_creates_iff_missing [("api_crawl_temp_gpt5.csv", [["x"]])]
      "api_crawl_temp_gpt5.csv").1 (by decide)
  · exact ((init_log_creates_iff_missing [] "api_crawl_temp_gpt5.csv").2 (by decide)).1

/-- Claim C6 counterexample: a task whose result wait raises
`concurrent.futures.TimeoutError` (whose `str` is empty) is recorded with
`error_msg = "线程执行异常："`, not the literal `"timeout"`. -/
theorem drain_timeout_message_counterexample :
    dictGet (drain_exception_record "https://example.com/doc" 2
        "2026-01-02 03:04:05" "") "error_msg" ≠ "timeout" ∧
    dictGet (drain_exception_record "https://example.com/doc" 2
        "2026-01-02 03:04:05" "") "error_msg" = "线程执行异常：" ∧
    dictGet (drain_exception_record "https://example.com/doc" 2
        "2026-01-02 03:04:05" "") "crawl_status" = "failed" := by
  decide

/-- Claim C6 (amended): a task whose result retrieval raises (timeouts
included) is recorded as a failed ResultRecord whose error message is
`"线程执行异常："` followed by the exception text. -/
theorem drain_exception_record_shape (url : String) (orn : Nat) (now e : String) :
    dictGet (drain_exception_record url orn now e) "crawl_status" = "failed" ∧
    dictGet (drain_exception_record url orn now e) "error_msg" = "线程执行异常：" ++ e := by
  constructor <;> simp [drain_exception_record, dictGet, dictFind]

/-- Claim C5 counterexample: with the pending set empty, a durable log
present and a file already at the output path, the short-circuit leaves
both files untouched — the log is not promoted and the old output is not
replaced. -/
theorem empty_pending_no_promotion_counterexample :
    fsRead (finalize_empty_pending
        [("api_crawl_temp_gpt5.csv", [["log"]]), ("output.csv", [["old"]])]
        "api_crawl_temp_gpt5.csv" "output.csv") "output.csv" = some [["old"]] ∧
    fsRead (finalize_empty_pending
        [("api_crawl_temp_gpt5.csv", [["log"]]), ("output.csv", [["old"]])]
        "api_crawl_temp_gpt5.csv" "output.csv") "api_crawl_temp_gpt5.csv" =
      some [["log"]] := by
  decide

/-- Claim C5 (amended): on an empty pending set the driver exits without
running the executor and promotes the durable log to the output path only
when the log exists and nothing sits at the output path; if a file already
exists at the output path, or no log exists, the filesystem is left
unchanged. -/
theorem empty_pending_promotion_amended (fs : FS) (temp output : String) :
    (temp ≠ output → fsExists fs temp = true → fsExists fs output = false →
      fsRead (finalize_empty_pending fs temp output) output = fsRead fs temp ∧
      fsRead (finalize_empty_pending fs temp output) temp = none) ∧
    (fsExists fs output = true → finalize_empty_pending fs temp output = fs) ∧
    (fsExists fs temp = false → finalize_empty_pending fs temp output = fs) := by
  refine ⟨?_, ?_, ?_⟩
  · intro hto ht ho
    obtain ⟨c, hc⟩ : ∃ c, fsRead fs temp = some c := by
      cases h : fsRead fs temp with
      | none => simp [fsExists, h] at ht
      | some c => exact ⟨c, rfl⟩
    have hcond : (fsExists fs temp && !fsExists fs output) = true := by
      simp [ht, ho]
    rw [finalize_empty_pending, if_pos hcond]
    unfold fsRename
    rw [hc]
    constructor
    · rw [fsRead_fsWrite_self]
    · rw [fsRead_fsWrite_ne _ _ _ _ hto, fsRead_fsRemove, if_pos rfl]
  · intro ho
    simp [finalize_empty_pending, ho]
  · intro ht
    simp [finalize_empty_pending, ht]

/-- Witness for the amended C5 at concrete filesystems: the log moves when
the output path is free, and nothing changes when it is occupied or the
log is missing. -/
theorem empty_pending_promotion_amended_witness :
    (fsRead (finalize_empty_pending [("api_crawl_temp_gpt5.csv", [["log"]])]
        "api_crawl_temp_gpt5.csv" "output.csv") "output.csv" =
      fsRead [("api_crawl_temp_gpt5.csv", [["log"]])] "api_crawl_temp_gpt5.csv") ∧
    (finalize_empty_pending
        [("api_crawl_temp_gpt5.csv", [["log"]]), ("output.csv", [["old"]])]
        "api_crawl_temp_gpt5.csv" "output.csv" =
      [("api_crawl_temp_gpt5.csv", [["log"]]), ("output.csv", [["old"]])]) ∧
    (finalize_empty_pending [] "api_crawl_temp_gpt5.csv" "output.csv" = []) := by
  refine ⟨?_, ?_, ?_⟩
  · exact ((empty_pending_promotion_amended [("api_crawl_temp_gpt5.csv", [["log"]])]
      "api_crawl_temp_gpt5.csv" "output.csv").1 (by decide) (by decide) (by decide)).1
  · exact (empty_pending_promotion_amended
      [("api_crawl_temp_gpt5.csv", [["log"]]), ("output.csv", [["old"]])]
      "api_crawl_temp_gpt5.csv" "output.csv").2.1 (by decide)
  · exact (empty_pending_promotion_amended [] "api_crawl_temp_gpt5.csv"
      "output.csv").2.2 (by decide)

lemma fsRead_promote_output (fs : FS) (temp output : String) (c : FileContent)
    (hto : temp ≠ output) (h : fsRead fs temp = some c) :
    fsRead (promote fs temp output) output = some c := by
  unfold promote
  rw [show fsExists fs temp = true by simp [fsExists, h]]
  by_cases ho : fsExists fs output
  · rw [if_pos rfl, if_pos ho]
    unfold fsRename
    rw [fsRead_fsRemove, if_neg hto, h, fsRead_fsWrite_self]
  · rw [if_pos rfl, if_neg ho]
    unfold fsRename
    rw [h, fsRead_fsWrite_self]

/-- Claim C1 counterexample: manifest `[a]` with a durable log holding a
prior failed row for `a`.  The re-run processes `a` again and appends a
second row, so the final artifact carries two rows whose url is `a` — the
sink does not deduplicate on resume. -/
theorem resume_duplicate_rows_counterexample :
    (((fsRead
        (batch_crawl_large_scale
          [("api_crawl_temp_gpt5.csv",
            [get_csv_columns,
             ["2", "a", "2026-01-01 00:00:00", "failed", "err",
              "", "", "", "", "", "", "", "", ""]])]
          (fun _ _ => AttemptOutcome.raise "boom") "2026-01-02 03:04:05" ["a"]
          "api_crawl_temp_gpt5.csv" "output.csv")
        "output.csv").getD []).countP (fun row => (row.get? 1).getD "" = "a")) = 2 := by
  decide

/-- Claim C1 (amended): re-running with some urls already successful
processes exactly the remaining pending urls (non-empty stripped urls not
logged as `success`), and the final artifact consists of every prior
durable-log row followed by exactly one newly appended row per pending
work item; since the sink appends without deduplication, a url whose prior
run left a failed row appears in more than one row once re-processed. -/
theorem resume_appends_without_dedup (fs : FS)
    (client : WorkItem → Nat → AttemptOutcome) (now : String)
    (manifest : List String) (temp output : String) (logData : FileContent)
    (hto : temp ≠ output)
    (hlog : fsRead fs temp = some (get_csv_columns :: logData))
    (hpending : load_urls_from_csv manifest (some (logData.map rowToLogRow)) ≠ []) :
    fsRead (batch_crawl_large_scale fs client now manifest temp output) output =
      some (get_csv_columns :: (logData ++
        (load_urls_from_csv manifest (some (logData.map rowToLogRow))).map
          (fun w => write_result_row
            (crawl_single_api (client w) w.url w.original_row_num now)))) ∧
    (load_urls_from_csv manifest (some (logData.map rowToLogRow))).length =
      manifest.countP (fun s => pyStrip s ≠ "" ∧
        pyStrip s ∉ completed_urls (some (logData.map rowToLogRow))) := by
  have hrt : readTempLog fs temp = some (logData.map rowToLogRow) := by
    simp [readTempLog, hlog]
  constructor
  · unfold batch_crawl_large_scale
    rw [hrt]
    rw [if_neg hpending]
    have hinit : init_temp_csv fs temp = fs := by
      simp [init_temp_csv, fsExists, hlog]
    rw [hinit]
    have hfold := fsRead_write_results_fold temp
      (fun w => crawl_single_api (client w) w.url w.original_row_num now)
      (load_urls_from_csv manifest (some (logData.map rowToLogRow)))
      fs (get_csv_columns :: logData) hlog
    rw [fsRead_promote_output _ temp output _ hto hfold]
    simp

  · exact length_load_urls_aux _ manifest 2

/-- Witness for the amended C1: re-running manifest `[a]` over a log with
one failed row for `a` yields a final artifact of header, old failed row,
and one freshly appended failed row — the old row retained beside the new
one. -/
theorem resume_appends_without_dedup_witness :
    fsRead (batch_crawl_large_scale
        [("api_crawl_temp_gpt5.csv",
          [get_csv_columns,
           ["2", "a", "2026-01-01 00:00:00", "failed", "err",
            "", "", "", "", "", "", "", "", ""]])]
        (fun _ _ => AttemptOutcome.raise "timed out") "2026-01-02 03:04:05" ["a"]
        "api_crawl_temp_gpt5.csv" "output.csv") "output.csv" =
      some [get_csv_columns,
        ["2", "a", "2026-01-01 00:00:00", "failed", "err",
         "", "", "", "", "", "", "", "", ""],
        ["2", "a", "2026-01-02 03:04:05", "failed",
         "超过2次重试：第2次重试失败：timed out",
         "", "", "", "", "", "", "", "", ""]] := by
  have h := resume_appends_without_dedup
    [("api_crawl_temp_gpt5.csv",
      [get_csv_columns,
       ["2", "a", "2026-01-01 00:00:00", "failed", "err",
        "", "", "", "", "", "", "", "", ""]])]
    (fun _ _ => AttemptOutcome.raise "timed out") "2026-01-02 03:04:05" ["a"]
    "api_crawl_temp_gpt5.csv" "output.csv"
    [["2", "a", "2026-01-01 00:00:00", "failed", "err",
      "", "", "", "", "", "", "", "", ""]]
    (by decide) (by decide) (by decide)
  rw [h.1]
  decide

end Crawler
